import Mathlib

/-!
Verification of `scripts/pipeline/transpile.py` (SuperCode repository).

The script is embedded shallowly:

* the file system is a map from path strings to optional contents;
* Python's `print` is modelled as appending the printed string plus a
  newline to standard output;
* an invocation is a pure function from the argument list (the user
  arguments, i.e. `sys.argv[1:]`) and the file system to a result record
  holding standard output, standard error, the exit code, the kind of
  uncaught runtime error (if any), and the resulting file system.

The script consists of a function `main` (lines 6-58) that is defined but
never called, and an unconditional block under `if __name__ == "__main__":`
(lines 60-68) that performs the actual work.  Both are embedded below.
-/

/-- The file system: a path either holds a readable text file with the given
content, or nothing (missing / unreadable). -/
def FileSystem : Type := String → Option String

/-- Kinds of uncaught Python runtime errors the script can raise on its
executed path: `IndexError` from evaluating `sys.argv[1]` with no argument,
and `FileNotFoundError`/`IOError` from `open` on a missing file. -/
inductive PyError where
  | indexError : PyError
  | fileNotFound : String → PyError
deriving DecidableEq, Repr

/-- The observable outcome of one invocation of the script. -/
structure ProcResult where
  stdout : String
  stderr : String
  exitCode : Nat
  error : Option PyError
  fs : FileSystem

/-- Python's `print(s)`: writes `s` followed by one newline. -/
def pyPrint (s : String) : String := s ++ "\n"

/-- The header text interpolated by line 66:
`f"// SIMULATED transpilation of {sys.argv[1]}"` (before `print` adds its
newline). -/
def headerLine (path : String) : String :=
  "// SIMULATED transpilation of " ++ path

/-- The unconditional block at the bottom of `transpile.py` (lines 66-68),
run when the script executes as `__main__`:

```
print(f"// SIMULATED transpilation of {sys.argv[1]}")
with open(sys.argv[1], 'r') as f:
    print(f.read())
```

With no user argument, evaluating `sys.argv[1]` inside the f-string raises
`IndexError` before anything is printed.  With an argument, the header line
is printed first; only then is `open` attempted, so a missing file leaves
the header on standard output and raises `FileNotFoundError`.  On success
`print(f.read())` writes the file content plus one extra newline.  An
uncaught error terminates the process with exit code 1. -/
def echoBlock (args : List String) (fs : FileSystem) : ProcResult :=
  match args with
  | [] =>
      { stdout := "", stderr := "", exitCode := 1,
        error := some PyError.indexError, fs := fs }
  | path :: _ =>
      match fs path with
      | none =>
          { stdout := pyPrint (headerLine path), stderr := "", exitCode := 1,
            error := some (PyError.fileNotFound path), fs := fs }
      | some content =>
          { stdout := pyPrint (headerLine path) ++ pyPrint content,
            stderr := "", exitCode := 0, error := none, fs := fs }

/-- The usage message `main` would print to standard error (line 13). -/
def usageMsg : String := "Usage: python transpile.py <path_to_python_file>"

/-- `os.path.basename`: the component after the last `/`. -/
def os_path_basename (p : String) : String :=
  (p.splitOn "/").getLastD p

/-- The function `main` of `transpile.py` (lines 6-58).  It validates the
argument count (`len(sys.argv) != 2`, i.e. not exactly one user argument),
checks `os.path.exists`, then inside a `try` block reads the file and prints
`"// Transpiled content from {basename}\n\n" + content`.  The `py2ts`
imports and the dummy `Schema` construction in the `try` block have no
observable effect in this model; with the existence check already passed,
the `except` branch is unreachable here.  This function is never called by
the script. -/
def mainFn (args : List String) (fs : FileSystem) : ProcResult :=
  match args with
  | [file_path] =>
      match fs file_path with
      | none =>
          { stdout := "",
            stderr := pyPrint ("Error: File not found at " ++ file_path),
            exitCode := 1, error := none, fs := fs }
      | some content =>
          { stdout := pyPrint ("// Transpiled content from " ++
              os_path_basename file_path ++ "\n\n" ++ content),
            stderr := "", exitCode := 0, error := none, fs := fs }
  | _ =>
      { stdout := "", stderr := pyPrint usageMsg, exitCode := 1,
        error := none, fs := fs }

/-- One invocation of `transpile.py` as a program.  Module-level execution
defines `main` without calling it and then, `__name__ == "__main__"` holding,
runs the unconditional block: the program's behaviour is that of `echoBlock`.
(The module-level `import` of `py2ts` is assumed to succeed and has no
observable effect.) -/
def transpileProgram (args : List String) (fs : FileSystem) : ProcResult :=
  echoBlock args fs

/-- A file system holding exactly one file, `hello.py`, with content
`print("hi")\n` — the spec's concrete scenario. -/
def helloFs : FileSystem :=
  fun p => if p = "hello.py" then some "print(\"hi\")\n" else none

/-- A second file system that agrees with `helloFs` on `hello.py` but not
elsewhere. -/
def helloFsVariant : FileSystem :=
  fun p => if p = "hello.py" then some "print(\"hi\")\n" else some "other"

/-- The empty file system: every path is missing. -/
def emptyFs : FileSystem := fun _ => none

/-- C1 (counterexample): on the spec's own concrete scenario — file
`hello.py` containing `print("hi")\n` — standard output is not the claimed
string `// SIMULATED transpilation of hello.py\nprint("hi")\n`: the final
`print(f.read())` appends one extra newline. -/
theorem C1_claimed_output_counterexample :
    (transpileProgram ["hello.py"] helloFs).stdout ≠
      "// SIMULATED transpilation of hello.py\nprint(\"hi\")\n" := by
  decide

/-- C1 (amended): for every existing readable file `F` with content `C`,
invoking the program with `F`'s path as the single argument produces
standard output exactly `"// SIMULATED transpilation of " ++ path ++ "\n"
++ C ++ "\n"` — the claimed string followed by one extra trailing newline
appended by `print`. -/
theorem C1_output_exact (path content : String) (fs : FileSystem)
    (h : fs path = some content) :
    (transpileProgram [path] fs).stdout =
      "// SIMULATED transpilation of " ++ path ++ "\n" ++ content ++ "\n" := by
  simp [transpileProgram, echoBlock, h, pyPrint, headerLine, String.append_assoc]

/-- C1 (witness): the amended statement evaluated on the `hello.py`
scenario. -/
theorem C1_output_exact_witness :
    (transpileProgram ["hello.py"] helloFs).stdout =
      "// SIMULATED transpilation of " ++ "hello.py" ++ "\n" ++
        "print(\"hi\")\n" ++ "\n" :=
  C1_output_exact "hello.py" "print(\"hi\")\n" helloFs (by decide)

/-- C2 (counterexample): on the `hello.py` scenario the output is not the
header line followed by the file's content byte-for-byte: the portion after
the header line carries one extra trailing newline. -/
theorem C2_roundtrip_counterexample :
    (transpileProgram ["hello.py"] helloFs).stdout ≠
      headerLine "hello.py" ++ "\n" ++ "print(\"hi\")\n" := by
  decide

/-- C2 (amended): for every existing readable file, the portion of standard
output after the header line is the original file's content with exactly one
newline appended by `print`; the content itself appears verbatim, with no
transformation, translation or mutation applied. -/
theorem C2_content_after_header (path content : String) (fs : FileSystem)
    (h : fs path = some content) :
    (transpileProgram [path] fs).stdout =
      headerLine path ++ "\n" ++ (content ++ "\n") := by
  simp [transpileProgram, echoBlock, h, pyPrint]

/-- C2 (witness): the amended statement evaluated on the `hello.py`
scenario. -/
theorem C2_content_after_header_witness :
    (transpileProgram ["hello.py"] helloFs).stdout =
      headerLine "hello.py" ++ "\n" ++ ("print(\"hi\")\n" ++ "\n") :=
  C2_content_after_header "hello.py" "print(\"hi\")\n" helloFs (by decide)

/-- C3 (counterexample): invoked on the missing path `missing.py`, the
program does write content to standard output — the header line is printed
before the failing `open` — refuting "writes no content to standard
output". -/
theorem C3_no_output_counterexample :
    (transpileProgram ["missing.py"] emptyFs).stdout ≠ "" := by
  decide

/-- C3 (amended): for every path that does not refer to an existing file,
invoking the program with that path as its single argument terminates with a
non-zero exit code, and standard output contains exactly the header line
(followed by its newline) and nothing else. -/
theorem C3_missing_file_exit (path : String) (fs : FileSystem)
    (h : fs path = none) :
    (transpileProgram [path] fs).exitCode ≠ 0 ∧
      (transpileProgram [path] fs).stdout = headerLine path ++ "\n" := by
  refine ⟨?_, ?_⟩ <;> simp [transpileProgram, echoBlock, h, pyPrint]

/-- C3 (witness): the amended statement evaluated at `missing.py` on the
empty file system. -/
theorem C3_missing_file_exit_witness :
    (transpileProgram ["missing.py"] emptyFs).exitCode ≠ 0 ∧
      (transpileProgram ["missing.py"] emptyFs).stdout =
        headerLine "missing.py" ++ "\n" :=
  C3_missing_file_exit "missing.py" emptyFs rfl

/-- C4 (confirmed): with zero command-line arguments the program exits
non-zero, the failure is an index/lookup error on the argument vector (not a
usage message — standard error stays empty), and standard output carries no
content at all. -/
theorem C4_zero_args_index_error (fs : FileSystem) :
    (transpileProgram [] fs).exitCode ≠ 0 ∧
      (transpileProgram [] fs).error = some PyError.indexError ∧
      (transpileProgram [] fs).stdout = "" ∧
      (transpileProgram [] fs).stderr = "" := by
  refine ⟨?_, rfl, rfl, rfl⟩
  simp [transpileProgram, echoBlock]

/-- C5 (confirmed): on every invocation the program behaves exactly as the
unconditional bottom block alone — `main`'s usage-validation and `try/except`
error-reporting path never runs, so no message ever reaches standard error —
and the program is observably different from `main` (e.g. on zero arguments
`main` would print the usage message to standard error, the program does
not). -/
theorem C5_program_is_echo_block (args : List String) (fs : FileSystem) :
    transpileProgram args fs = echoBlock args fs ∧
      (transpileProgram args fs).stderr = "" ∧
      transpileProgram [] emptyFs ≠ mainFn [] emptyFs := by
  refine ⟨rfl, ?_, ?_⟩
  · match args with
    | [] => rfl
    | path :: rest =>
        simp only [transpileProgram, echoBlock]
        cases fs path <;> rfl
  · intro h
    have := congrArg ProcResult.stderr h
    simp [transpileProgram, echoBlock, mainFn, pyPrint, usageMsg] at this

/-- C6 (confirmed): when the single path argument cannot be opened, standard
output already contains exactly the header line plus its newline — the
header is printed before `open` is attempted — and the failure is the
file-access error for that path. -/
theorem C6_partial_output_on_open_failure (path : String) (fs : FileSystem)
    (h : fs path = none) :
    (transpileProgram [path] fs).stdout =
        "// SIMULATED transpilation of " ++ path ++ "\n" ∧
      (transpileProgram [path] fs).error =
        some (PyError.fileNotFound path) := by
  refine ⟨?_, ?_⟩ <;> simp [transpileProgram, echoBlock, h, pyPrint, headerLine]

/-- C6 (witness): evaluated at `missing.py` on the empty file system. -/
theorem C6_partial_output_witness :
    (transpileProgram ["missing.py"] emptyFs).stdout =
        "// SIMULATED transpilation of " ++ "missing.py" ++ "\n" ∧
      (transpileProgram ["missing.py"] emptyFs).error =
        some (PyError.fileNotFound "missing.py") :=
  C6_partial_output_on_open_failure "missing.py" emptyFs rfl

/-- C7 (confirmed): with a single path argument the exit code is 0 exactly
when the file exists and is readable; with zero arguments the exit code is
non-zero.  (A missing or unreadable file is `fs path = none`, so both
failure kinds exit non-zero.) -/
theorem C7_exit_codes (path : String) (fs : FileSystem) :
    ((transpileProgram [path] fs).exitCode = 0 ↔ (fs path).isSome = true) ∧
      (transpileProgram [] fs).exitCode ≠ 0 := by
  constructor
  · simp only [transpileProgram, echoBlock]
    cases fs path <;> simp
  · simp [transpileProgram, echoBlock]

/-- C8 (confirmed): the program is deterministic in its input — standard
output depends only on the path argument and the content stored at that
path, so two invocations agreeing on both produce byte-identical output. -/
theorem C8_deterministic (path : String) (fs₁ fs₂ : FileSystem)
    (h : fs₁ path = fs₂ path) :
    (transpileProgram [path] fs₁).stdout =
      (transpileProgram [path] fs₂).stdout := by
  simp only [transpileProgram, echoBlock, h]
  cases fs₂ path <;> rfl

/-- C8 (witness): two file systems that agree on `hello.py` but differ
elsewhere yield the same output for `hello.py`. -/
theorem C8_deterministic_witness :
    (transpileProgram ["hello.py"] helloFs).stdout =
      (transpileProgram ["hello.py"] helloFsVariant).stdout :=
  C8_deterministic "hello.py" helloFs helloFsVariant (by decide)

/-- C9 (confirmed): on every invocation the program writes nothing to
standard error and leaves the file system unchanged — writing to standard
output is its only effect (the embedding has no network action at all). -/
theorem C9_side_effects (args : List String) (fs : FileSystem) :
    (transpileProgram args fs).stderr = "" ∧
      (transpileProgram args fs).fs = fs := by
  match args with
  | [] => exact ⟨rfl, rfl⟩
  | path :: rest =>
      simp only [transpileProgram, echoBlock]
      cases fs path <;> exact ⟨rfl, rfl⟩

/-- C10 (confirmed): with two or more arguments the program behaves exactly
as if invoked with only the first, silently ignoring the rest: the results
coincide, no usage message is printed, and it fails only when the
single-argument invocation would (exit 0 exactly when the first argument's
file exists). -/
theorem C10_extra_args_ignored (path arg₂ : String) (rest : List String)
    (fs : FileSystem) :
    transpileProgram (path :: arg₂ :: rest) fs = transpileProgram [path] fs ∧
      (transpileProgram (path :: arg₂ :: rest) fs).stderr = "" ∧
      ((transpileProgram (path :: arg₂ :: rest) fs).exitCode = 0 ↔
        (fs path).isSome = true) := by
  refine ⟨rfl, ?_, ?_⟩ <;> simp only [transpileProgram, echoBlock] <;>
    cases fs path <;> simp
